import Mathlib

/-!
Record-layer adapter of libsecurity_ssl (`sslRecord.c`).

A shallow embedding of `errorTranslate`, `SSLWriteRecord`, `SSLFreeRecord`,
`SSLReadRecord` and `SSLServiceWriteQueue`, and theorems about what each of
them returns and which collaborators it calls.

Conventions of the embedding.

* `int` / `OSStatus` values are `Int`.  The code does no arithmetic on them (it
  only compares and copies), so no wrap-around can occur.
* The numeric values of the status constants live in headers that are not part
  of the sources at hand (`SecureTransport.h`, `SSLRecordInternal.h`).  They are
  a parameter, `Codes`.  A C `switch` only compiles when its case labels are
  pairwise distinct; `Codes.WF` records exactly that for the two switches.
* A C `switch` is written as an `if … else if …` chain in the order of the
  source's `case` labels.
* Calls to collaborators that are not defined in `sslRecord.c` (the transport's
  four functions, `sslErrorLog`, `SSLFatalSessionAlert`, `DTLSRetransmit`) are
  recorded, in program order, in a trace of `Event`s.  The values the two
  collaborators `SSLFatalSessionAlert` and `DTLSRetransmit` return are dropped
  by the code, so they do not appear.
-/

namespace SSLRecordLayer

/-! ## Data model -/

/-- Modelled from the spec: the alert descriptors (`AlertDescription` of
`sslAlertMessage.h`, which is not among the sources).  The four kinds the
adapter names, plus the decryption-failed descriptor the spec says is never
requested. -/
inductive AlertDescription
  | SSL_AlertCloseNotify
  | SSL_AlertBadRecordMac
  | SSL_AlertDecryptionFail
  | SSL_AlertRecordOverflow
  | SSL_AlertInternalError
  deriving DecidableEq, Repr

/-- Modelled from the spec: a record is a content-type tag, a protocol-version
tag and uninterpreted payload bytes (`SSLRecord` of `sslRecord.h`, not among the
sources).  `sslRecord.c` never looks inside one. -/
structure SSLRecord where
  contentType : Nat
  protocolVersion : Nat
  contents : List Nat
  deriving DecidableEq, Repr

/-- The status constants used by `sslRecord.c`.  `errSSLRecord*` are the codes of
the record transport (`SSLRecordInternal.h`), `errSSL*` the session-level codes
(`SecureTransport.h`); `errSecSuccess` is shared by both. -/
structure Codes where
  errSecSuccess : Int
  errSSLRecordInternal : Int
  errSSLRecordWouldBlock : Int
  errSSLRecordProtocol : Int
  errSSLRecordNegotiation : Int
  errSSLRecordClosedAbort : Int
  errSSLRecordConnectionRefused : Int
  errSSLRecordDecryptionFail : Int
  errSSLRecordBadRecordMac : Int
  errSSLRecordRecordOverflow : Int
  errSSLRecordUnexpectedRecord : Int
  errSSLInternal : Int
  errSSLWouldBlock : Int
  errSSLProtocol : Int
  errSSLNegotiation : Int
  errSSLClosedAbort : Int
  errSSLConnectionRefused : Int
  errSSLDecryptionFail : Int
  errSSLBadRecordMac : Int
  errSSLRecordOverflow : Int
  errSSLUnexpectedRecord : Int

/-- The eleven `case` labels of the switch in `errorTranslate`, in source order. -/
def Codes.translateLabels (c : Codes) : List Int :=
  [c.errSecSuccess, c.errSSLRecordInternal, c.errSSLRecordWouldBlock,
   c.errSSLRecordProtocol, c.errSSLRecordNegotiation, c.errSSLRecordClosedAbort,
   c.errSSLRecordConnectionRefused, c.errSSLRecordDecryptionFail,
   c.errSSLRecordBadRecordMac, c.errSSLRecordRecordOverflow,
   c.errSSLRecordUnexpectedRecord]

/-- The nine `case` labels of the switch in `SSLReadRecord`, in source order. -/
def Codes.readLabels (c : Codes) : List Int :=
  [c.errSecSuccess, c.errSSLWouldBlock, c.errSSLUnexpectedRecord,
   c.errSSLDecryptionFail, c.errSSLBadRecordMac, c.errSSLInternal,
   c.errSSLRecordOverflow, c.errSSLClosedAbort, c.errSSLConnectionRefused]

/-- The eleven session-level codes `errorTranslate` answers for its eleven
`case` labels, in the same order. -/
def Codes.translateResults (c : Codes) : List Int :=
  [c.errSecSuccess, c.errSSLInternal, c.errSSLWouldBlock, c.errSSLProtocol,
   c.errSSLNegotiation, c.errSSLClosedAbort, c.errSSLConnectionRefused,
   c.errSSLDecryptionFail, c.errSSLBadRecordMac, c.errSSLRecordOverflow,
   c.errSSLUnexpectedRecord]

/-- Modelled from the spec: `SessionErrorCode` is an enumeration (the `errSSL*`
block of `SecureTransport.h`, not among the sources), so the eleven
session-level constants are eleven different values. -/
def Codes.SessionDistinct (c : Codes) : Prop :=
  c.translateResults.Nodup

instance (c : Codes) : Decidable c.SessionDistinct :=
  inferInstanceAs (Decidable c.translateResults.Nodup)

/-- What the C compiler demands of the constants: within each of the two
switches no two case labels have the same value. -/
def Codes.WF (c : Codes) : Prop :=
  c.translateLabels.Nodup ∧ c.readLabels.Nodup

instance (c : Codes) : Decidable c.WF :=
  inferInstanceAs (Decidable (c.translateLabels.Nodup ∧ c.readLabels.Nodup))

/-- The values the constants have in the platform headers (`errSecSuccess` and
the `errSSL*` block of `SecureTransport.h`, the `errSSLRecord*` block of
`SSLRecordInternal.h`).  The headers are not among the sources at hand; this
instance only serves as the concrete environment of examples. -/
def darwinCodes : Codes where
  errSecSuccess := 0
  errSSLRecordInternal := -10000
  errSSLRecordWouldBlock := -10001
  errSSLRecordProtocol := -10002
  errSSLRecordNegotiation := -10003
  errSSLRecordClosedAbort := -10004
  errSSLRecordConnectionRefused := -10005
  errSSLRecordDecryptionFail := -10006
  errSSLRecordBadRecordMac := -10007
  errSSLRecordRecordOverflow := -10008
  errSSLRecordUnexpectedRecord := -10009
  errSSLInternal := -9810
  errSSLWouldBlock := -9803
  errSSLProtocol := -9800
  errSSLNegotiation := -9801
  errSSLClosedAbort := -9806
  errSSLConnectionRefused := -9844
  errSSLDecryptionFail := -9845
  errSSLBadRecordMac := -9846
  errSSLRecordOverflow := -9847
  errSSLUnexpectedRecord := -9849

/-- The three call sites of `sslErrorLog` in `sslRecord.c`:
"unknown error code returned in sslErrorTranslate: %d",
"unexpected error code returned in SSLWriteRecord: %d",
"unknown error code returned in SSLReadRecord: %d". -/
inductive LogSite
  | sslErrorTranslate
  | SSLWriteRecord
  | SSLReadRecord
  deriving DecidableEq, Repr

/-- One call that leaves `sslRecord.c`. -/
inductive Event
  /-- The call `ctx->recFuncs->read(ctx->recCtx, rec)`. -/
  | read
  /-- The call `ctx->recFuncs->write(ctx->recCtx, rec)`. -/
  | write (rec : SSLRecord)
  /-- The call `ctx->recFuncs->free(ctx->recCtx, rec)`. -/
  | free (rec : SSLRecord)
  /-- The call `ctx->recFuncs->serviceWriteQueue(ctx->recCtx)`. -/
  | serviceWriteQueue
  /-- The call `sslErrorLog(fmt, code)` at the given call site. -/
  | sslErrorLog (site : LogSite) (code : Int)
  /-- The call `SSLFatalSessionAlert(desc, ctx)`. -/
  | SSLFatalSessionAlert (desc : AlertDescription)
  /-- The call `DTLSRetransmit(ctx)`. -/
  | DTLSRetransmit
  deriving DecidableEq, Repr

/-- What a transport function hands back: its `int` status and the transport's
own state afterwards. -/
structure CallResult (σ : Type) where
  status : Int
  recCtx : σ

/-- What the transport's `read` hands back: status, the transport's state
afterwards, and the content of `*rec` afterwards. -/
structure ReadResult (σ : Type) where
  status : Int
  recCtx : σ
  record : SSLRecord

/-- The function table `ctx->recFuncs`; `σ` is the transport's private state
behind `ctx->recCtx`. -/
structure SSLRecordFuncs (σ : Type) where
  read : σ → SSLRecord → ReadResult σ
  write : σ → SSLRecord → CallResult σ
  free : σ → SSLRecord → CallResult σ
  serviceWriteQueue : σ → CallResult σ

/-- The fields of `SSLContext` that `sslRecord.c` reads. -/
structure SSLContext (σ : Type) where
  recFuncs : SSLRecordFuncs σ
  recCtx : σ
  isDTLS : Bool

/-- The observable result of one adapter call: the `OSStatus` returned, the
record behind the caller's `rec` argument afterwards, the transport's state as
the transport function called by the adapter left it, and the calls made, in
order.  What `SSLFatalSessionAlert` and `DTLSRetransmit` do in turn is outside
`sslRecord.c` and shows only as their `Event`. -/
structure Outcome (σ : Type) where
  err : Int
  record : SSLRecord
  recCtx : σ
  trace : List Event

/-! ## The functions of `sslRecord.c` -/

/-- Embedding of `static OSStatus errorTranslate(int recordErr)`: the returned
status and the log calls made. -/
def errorTranslate (c : Codes) (recordErr : Int) : Int × List Event :=
  if recordErr = c.errSecSuccess then (c.errSecSuccess, [])
  else if recordErr = c.errSSLRecordInternal then (c.errSSLInternal, [])
  else if recordErr = c.errSSLRecordWouldBlock then (c.errSSLWouldBlock, [])
  else if recordErr = c.errSSLRecordProtocol then (c.errSSLProtocol, [])
  else if recordErr = c.errSSLRecordNegotiation then (c.errSSLNegotiation, [])
  else if recordErr = c.errSSLRecordClosedAbort then (c.errSSLClosedAbort, [])
  else if recordErr = c.errSSLRecordConnectionRefused then (c.errSSLConnectionRefused, [])
  else if recordErr = c.errSSLRecordDecryptionFail then (c.errSSLDecryptionFail, [])
  else if recordErr = c.errSSLRecordBadRecordMac then (c.errSSLBadRecordMac, [])
  else if recordErr = c.errSSLRecordRecordOverflow then (c.errSSLRecordOverflow, [])
  else if recordErr = c.errSSLRecordUnexpectedRecord then (c.errSSLUnexpectedRecord, [])
  else (recordErr, [Event.sslErrorLog LogSite.sslErrorTranslate recordErr])

/-- Embedding of `OSStatus SSLWriteRecord(SSLRecord rec, SSLContext *ctx)`. -/
def SSLWriteRecord {σ : Type} (c : Codes) (rec : SSLRecord) (ctx : SSLContext σ) :
    Outcome σ :=
  let w := ctx.recFuncs.write ctx.recCtx rec
  let t := errorTranslate c w.status
  let err := t.1
  let logs :=
    if err = c.errSecSuccess then []
    else [Event.sslErrorLog LogSite.SSLWriteRecord err]
  { err := err, record := rec, recCtx := w.recCtx,
    trace := [Event.write rec] ++ t.2 ++ logs }

/-- Embedding of `OSStatus SSLFreeRecord(SSLRecord rec, SSLContext *ctx)`. -/
def SSLFreeRecord {σ : Type} (rec : SSLRecord) (ctx : SSLContext σ) : Outcome σ :=
  let f := ctx.recFuncs.free ctx.recCtx rec
  { err := f.status, record := rec, recCtx := f.recCtx, trace := [Event.free rec] }

/-- Embedding of `OSStatus SSLReadRecord(SSLRecord *rec, SSLContext *ctx)`; `rec`
is the content of `*rec` on entry. -/
def SSLReadRecord {σ : Type} (c : Codes) (rec : SSLRecord) (ctx : SSLContext σ) :
    Outcome σ :=
  let r := ctx.recFuncs.read ctx.recCtx rec
  let t := errorTranslate c r.status
  let err := t.1
  let sw : Int × List Event :=
    if err = c.errSecSuccess ∨ err = c.errSSLWouldBlock then (err, [])
    else if err = c.errSSLUnexpectedRecord then (err, [Event.DTLSRetransmit])
    else if err = c.errSSLDecryptionFail ∨ err = c.errSSLBadRecordMac then
      if ctx.isDTLS then (c.errSSLUnexpectedRecord, [])
      else (err, [Event.SSLFatalSessionAlert AlertDescription.SSL_AlertBadRecordMac])
    else if err = c.errSSLInternal then
      (err, [Event.SSLFatalSessionAlert AlertDescription.SSL_AlertInternalError])
    else if err = c.errSSLRecordOverflow then
      (err, [Event.SSLFatalSessionAlert AlertDescription.SSL_AlertRecordOverflow])
    else if err = c.errSSLClosedAbort ∨ err = c.errSSLConnectionRefused then
      (err, [Event.SSLFatalSessionAlert AlertDescription.SSL_AlertCloseNotify])
    else
      (err, [Event.sslErrorLog LogSite.SSLReadRecord err,
             Event.SSLFatalSessionAlert AlertDescription.SSL_AlertCloseNotify])
  { err := sw.1, record := r.record, recCtx := r.recCtx,
    trace := [Event.read] ++ t.2 ++ sw.2 }

/-- Embedding of `OSStatus SSLServiceWriteQueue(SSLContext *ctx)`; it takes no
record, `rec` is only carried through the `Outcome`. -/
def SSLServiceWriteQueue {σ : Type} (c : Codes) (rec : SSLRecord) (ctx : SSLContext σ) :
    Outcome σ :=
  let s := ctx.recFuncs.serviceWriteQueue ctx.recCtx
  let t := errorTranslate c s.status
  { err := t.1, record := rec, recCtx := s.recCtx,
    trace := [Event.serviceWriteQueue] ++ t.2 }

/-- The status the transport's `read` answers for this context and record. -/
def readStatus {σ : Type} (ctx : SSLContext σ) (rec : SSLRecord) : Int :=
  (ctx.recFuncs.read ctx.recCtx rec).status

/-! ## Reading a trace -/

/-- The kinds of the `SSLFatalSessionAlert` calls of a trace, in order. -/
def alertsOf : List Event → List AlertDescription
  | [] => []
  | Event.SSLFatalSessionAlert d :: es => d :: alertsOf es
  | _ :: es => alertsOf es

/-- The number of `DTLSRetransmit` calls of a trace. -/
def retransmitCount : List Event → Nat
  | [] => 0
  | Event.DTLSRetransmit :: es => retransmitCount es + 1
  | _ :: es => retransmitCount es

/-- The `sslErrorLog` calls of a trace, in order. -/
def logsOf : List Event → List (LogSite × Int)
  | [] => []
  | Event.sslErrorLog s n :: es => (s, n) :: logsOf es
  | _ :: es => logsOf es

/-- The number of calls to `SSLFatalSessionAlert` or `DTLSRetransmit`. -/
def sideEffectCount (es : List Event) : Nat :=
  (alertsOf es).length + retransmitCount es

/-! ## A test-double transport -/

/-- A transport whose every function answers the fixed status `status`; `read`
stores `payload` into `*rec`.  Its state counts the calls made to it. -/
def stubFuncs (status : Int) (payload : SSLRecord) : SSLRecordFuncs Nat where
  read := fun n _ => { status := status, recCtx := n + 1, record := payload }
  write := fun n _ => { status := status, recCtx := n + 1 }
  free := fun n _ => { status := status, recCtx := n + 1 }
  serviceWriteQueue := fun n => { status := status, recCtx := n + 1 }

/-- A context over the test-double transport. -/
def stubCtx (status : Int) (payload : SSLRecord) (isDTLS : Bool) : SSLContext Nat where
  recFuncs := stubFuncs status payload
  recCtx := 0
  isDTLS := isDTLS

/-- An empty record, the content of the caller's `*rec` before a read. -/
def emptyRecord : SSLRecord where
  contentType := 0
  protocolVersion := 0
  contents := []

/-- A sample application-data record. -/
def sampleRecord : SSLRecord where
  contentType := 23
  protocolVersion := 771
  contents := [104, 105]


/-! ## Auxiliary lemmas -/

theorem alertsOf_append (xs ys : List Event) :
    alertsOf (xs ++ ys) = alertsOf xs ++ alertsOf ys := by
  induction xs with
  | nil => rfl
  | cons e es ih => cases e <;> simp [alertsOf, ih]

theorem retransmitCount_append (xs ys : List Event) :
    retransmitCount (xs ++ ys) = retransmitCount xs + retransmitCount ys := by
  induction xs with
  | nil => simp [retransmitCount]
  | cons e es ih =>
    cases e <;> simp [retransmitCount, ih]
    omega

theorem logsOf_append (xs ys : List Event) :
    logsOf (xs ++ ys) = logsOf xs ++ logsOf ys := by
  induction xs with
  | nil => rfl
  | cons e es ih => cases e <;> simp [logsOf, ih]

/-- Distinctness of the case labels, read from the last label to the first, so
that each fact has the shape `later label ≠ earlier label`. -/
theorem Codes.WF.rev {c : Codes} (h : c.WF) :
    [c.errSSLRecordUnexpectedRecord, c.errSSLRecordRecordOverflow,
     c.errSSLRecordBadRecordMac, c.errSSLRecordDecryptionFail,
     c.errSSLRecordConnectionRefused, c.errSSLRecordClosedAbort,
     c.errSSLRecordNegotiation, c.errSSLRecordProtocol, c.errSSLRecordWouldBlock,
     c.errSSLRecordInternal, c.errSecSuccess].Nodup ∧
    [c.errSSLConnectionRefused, c.errSSLClosedAbort, c.errSSLRecordOverflow,
     c.errSSLInternal, c.errSSLBadRecordMac, c.errSSLDecryptionFail,
     c.errSSLUnexpectedRecord, c.errSSLWouldBlock, c.errSecSuccess].Nodup :=
  ⟨List.nodup_reverse.mpr h.1, List.nodup_reverse.mpr h.2⟩

/-- `errorTranslate` only ever logs: its trace holds no alert. -/
theorem alertsOf_errorTranslate (c : Codes) (r : Int) :
    alertsOf (errorTranslate c r).2 = [] := by
  simp only [errorTranslate, apply_ite Prod.snd, apply_ite alertsOf, alertsOf, ite_self]

/-- `errorTranslate` only ever logs: its trace holds no retransmission. -/
theorem retransmitCount_errorTranslate (c : Codes) (r : Int) :
    retransmitCount (errorTranslate c r).2 = 0 := by
  simp only [errorTranslate, apply_ite Prod.snd, apply_ite retransmitCount,
    retransmitCount, ite_self]

/-- A status that is none of the eleven case labels takes the `default` branch
of `errorTranslate`. -/
theorem errorTranslate_unrecognized (c : Codes) (r : Int) (h : r ∉ c.translateLabels) :
    errorTranslate c r = (r, [Event.sslErrorLog LogSite.sslErrorTranslate r]) := by
  simp only [Codes.translateLabels, List.mem_cons, List.mem_singleton, not_or,
    List.not_mem_nil, or_false] at h
  simp [errorTranslate, h]

theorem errorTranslate_success (c : Codes) :
    errorTranslate c c.errSecSuccess = (c.errSecSuccess, []) := by
  simp [errorTranslate]

theorem errorTranslate_internal {c : Codes} (h : c.WF) :
    errorTranslate c c.errSSLRecordInternal = (c.errSSLInternal, []) := by
  obtain ⟨hT, -⟩ := h.rev
  simp only [List.nodup_cons, List.mem_cons, List.mem_singleton, not_or] at hT
  simp [errorTranslate, hT]

theorem errorTranslate_wouldBlock {c : Codes} (h : c.WF) :
    errorTranslate c c.errSSLRecordWouldBlock = (c.errSSLWouldBlock, []) := by
  obtain ⟨hT, -⟩ := h.rev
  simp only [List.nodup_cons, List.mem_cons, List.mem_singleton, not_or] at hT
  simp [errorTranslate, hT]

theorem errorTranslate_protocol {c : Codes} (h : c.WF) :
    errorTranslate c c.errSSLRecordProtocol = (c.errSSLProtocol, []) := by
  obtain ⟨hT, -⟩ := h.rev
  simp only [List.nodup_cons, List.mem_cons, List.mem_singleton, not_or] at hT
  simp [errorTranslate, hT]

theorem errorTranslate_negotiation {c : Codes} (h : c.WF) :
    errorTranslate c c.errSSLRecordNegotiation = (c.errSSLNegotiation, []) := by
  obtain ⟨hT, -⟩ := h.rev
  simp only [List.nodup_cons, List.mem_cons, List.mem_singleton, not_or] at hT
  simp [errorTranslate, hT]

theorem errorTranslate_closedAbort {c : Codes} (h : c.WF) :
    errorTranslate c c.errSSLRecordClosedAbort = (c.errSSLClosedAbort, []) := by
  obtain ⟨hT, -⟩ := h.rev
  simp only [List.nodup_cons, List.mem_cons, List.mem_singleton, not_or] at hT
  simp [errorTranslate, hT]

theorem errorTranslate_connectionRefused {c : Codes} (h : c.WF) :
    errorTranslate c c.errSSLRecordConnectionRefused = (c.errSSLConnectionRefused, []) := by
  obtain ⟨hT, -⟩ := h.rev
  simp only [List.nodup_cons, List.mem_cons, List.mem_singleton, not_or] at hT
  simp [errorTranslate, hT]

theorem errorTranslate_decryptionFail {c : Codes} (h : c.WF) :
    errorTranslate c c.errSSLRecordDecryptionFail = (c.errSSLDecryptionFail, []) := by
  obtain ⟨hT, -⟩ := h.rev
  simp only [List.nodup_cons, List.mem_cons, List.mem_singleton, not_or] at hT
  simp [errorTranslate, hT]

theorem errorTranslate_badRecordMac {c : Codes} (h : c.WF) :
    errorTranslate c c.errSSLRecordBadRecordMac = (c.errSSLBadRecordMac, []) := by
  obtain ⟨hT, -⟩ := h.rev
  simp only [List.nodup_cons, List.mem_cons, List.mem_singleton, not_or] at hT
  simp [errorTranslate, hT]

theorem errorTranslate_recordOverflow {c : Codes} (h : c.WF) :
    errorTranslate c c.errSSLRecordRecordOverflow = (c.errSSLRecordOverflow, []) := by
  obtain ⟨hT, -⟩ := h.rev
  simp only [List.nodup_cons, List.mem_cons, List.mem_singleton, not_or] at hT
  simp [errorTranslate, hT]

theorem errorTranslate_unexpectedRecord {c : Codes} (h : c.WF) :
    errorTranslate c c.errSSLRecordUnexpectedRecord = (c.errSSLUnexpectedRecord, []) := by
  obtain ⟨hT, -⟩ := h.rev
  simp only [List.nodup_cons, List.mem_cons, List.mem_singleton, not_or] at hT
  simp [errorTranslate, hT]

/-- The body of `SSLReadRecord` once the transport's status is known to
translate to `t` with log entries `l`. -/
theorem SSLReadRecord_of_translate {σ : Type} (c : Codes) (rec : SSLRecord)
    (ctx : SSLContext σ) (t : Int) (l : List Event)
    (ht : errorTranslate c (readStatus ctx rec) = (t, l)) :
    SSLReadRecord c rec ctx =
      { err :=
          (if t = c.errSecSuccess ∨ t = c.errSSLWouldBlock then t
          else if t = c.errSSLUnexpectedRecord then t
          else if t = c.errSSLDecryptionFail ∨ t = c.errSSLBadRecordMac then
            if ctx.isDTLS then c.errSSLUnexpectedRecord else t
          else t),
        record := (ctx.recFuncs.read ctx.recCtx rec).record,
        recCtx := (ctx.recFuncs.read ctx.recCtx rec).recCtx,
        trace := Event.read :: (l ++
          (if t = c.errSecSuccess ∨ t = c.errSSLWouldBlock then []
          else if t = c.errSSLUnexpectedRecord then [Event.DTLSRetransmit]
          else if t = c.errSSLDecryptionFail ∨ t = c.errSSLBadRecordMac then
            if ctx.isDTLS then []
            else [Event.SSLFatalSessionAlert AlertDescription.SSL_AlertBadRecordMac]
          else if t = c.errSSLInternal then
            [Event.SSLFatalSessionAlert AlertDescription.SSL_AlertInternalError]
          else if t = c.errSSLRecordOverflow then
            [Event.SSLFatalSessionAlert AlertDescription.SSL_AlertRecordOverflow]
          else if t = c.errSSLClosedAbort ∨ t = c.errSSLConnectionRefused then
            [Event.SSLFatalSessionAlert AlertDescription.SSL_AlertCloseNotify]
          else
            [Event.sslErrorLog LogSite.SSLReadRecord t,
             Event.SSLFatalSessionAlert AlertDescription.SSL_AlertCloseNotify])) } := by
  unfold readStatus at ht
  simp only [SSLReadRecord, ht, apply_ite Prod.fst, apply_ite Prod.snd, ite_self,
    List.singleton_append, List.cons_append, List.nil_append, List.append_assoc]

/-! ## The read path -/

/-- C1, as stated, fails: on a DTLS context a bad-record-mac status translates to
a code that is neither success nor would-block, and `SSLReadRecord` calls
neither `SSLFatalSessionAlert` nor `DTLSRetransmit`. -/
theorem C1_counterexample :
    (errorTranslate darwinCodes darwinCodes.errSSLRecordBadRecordMac).1
        ≠ darwinCodes.errSecSuccess ∧
    (errorTranslate darwinCodes darwinCodes.errSSLRecordBadRecordMac).1
        ≠ darwinCodes.errSSLWouldBlock ∧
    sideEffectCount (SSLReadRecord darwinCodes emptyRecord
      (stubCtx darwinCodes.errSSLRecordBadRecordMac sampleRecord true)).trace = 0 := by
  decide

/-- C1, amended: whenever the translated status is neither success nor
would-block, `SSLReadRecord` makes exactly one call out of
{`SSLFatalSessionAlert`, `DTLSRetransmit`}, except on a DTLS context with a
translated status of decryption-fail or bad-record-mac, where it makes none. -/
theorem C1_one_side_effect_unless_dtls_mac {σ : Type} (c : Codes) (h : c.WF)
    (rec : SSLRecord) (ctx : SSLContext σ)
    (hs : (errorTranslate c (readStatus ctx rec)).1 ≠ c.errSecSuccess)
    (hw : (errorTranslate c (readStatus ctx rec)).1 ≠ c.errSSLWouldBlock) :
    sideEffectCount (SSLReadRecord c rec ctx).trace =
      if ctx.isDTLS = true ∧
          ((errorTranslate c (readStatus ctx rec)).1 = c.errSSLDecryptionFail ∨
           (errorTranslate c (readStatus ctx rec)).1 = c.errSSLBadRecordMac)
      then 0 else 1 := by
  obtain ⟨-, hR⟩ := h.rev
  obtain ⟨-, hF⟩ := h
  simp only [Codes.readLabels, List.nodup_cons, List.mem_cons, List.mem_singleton, not_or,
    List.not_mem_nil, not_false_eq_true, and_true, List.nodup_nil] at hR hF
  have hl := alertsOf_errorTranslate c (readStatus ctx rec)
  have hr := retransmitCount_errorTranslate c (readStatus ctx rec)
  rcases hte : errorTranslate c (readStatus ctx rec) with ⟨t, l⟩
  rw [hte] at hs hw hl hr
  simp only at hs hw hl hr
  rw [SSLReadRecord_of_translate c rec ctx t l hte]
  simp only [sideEffectCount, alertsOf, retransmitCount, alertsOf_append,
    retransmitCount_append, hl, hr]
  by_cases h1 : t = c.errSSLUnexpectedRecord
  · subst h1
    simp [hR, hF, alertsOf, retransmitCount]
  by_cases h2 : t = c.errSSLDecryptionFail ∨ t = c.errSSLBadRecordMac
  · cases hd : ctx.isDTLS <;> simp [hs, hw, h1, h2, hR, hF, alertsOf, retransmitCount]
  by_cases h3 : t = c.errSSLInternal
  · simp [hs, hw, h1, h2, h3, hR, hF, alertsOf, retransmitCount]
  by_cases h4 : t = c.errSSLRecordOverflow
  · simp [hs, hw, h1, h2, h3, h4, hR, hF, alertsOf, retransmitCount]
  by_cases h5 : t = c.errSSLClosedAbort ∨ t = c.errSSLConnectionRefused
  · simp [hs, hw, h1, h2, h3, h4, h5, hR, hF, alertsOf, retransmitCount]
  · simp [hs, hw, h1, h2, h3, h4, h5, hR, hF, alertsOf, retransmitCount]

/-- The amended C1 at a stream context whose transport reports bad-record-mac. -/
theorem C1_one_side_effect_unless_dtls_mac_witness :
    darwinCodes.WF ∧
    sideEffectCount (SSLReadRecord darwinCodes emptyRecord
      (stubCtx darwinCodes.errSSLRecordBadRecordMac sampleRecord false)).trace = 1 :=
  ⟨by decide,
   C1_one_side_effect_unless_dtls_mac darwinCodes (by decide) emptyRecord
     (stubCtx darwinCodes.errSSLRecordBadRecordMac sampleRecord false)
     (by decide) (by decide)⟩

/-- C2, as stated, fails: on a DTLS context whose transport reports
decryption-fail, `SSLReadRecord` does not call `DTLSRetransmit` once, it does
not call it at all. -/
theorem C2_counterexample :
    retransmitCount (SSLReadRecord darwinCodes emptyRecord
      (stubCtx darwinCodes.errSSLRecordDecryptionFail sampleRecord true)).trace ≠ 1 := by
  decide

/-- C2, amended: on a DTLS context, when the transport's read reports
bad-record-mac or decryption-fail, `SSLReadRecord` makes no `DTLSRetransmit`
call; the transport's `read` is the only call it makes. -/
theorem C2_dtls_mac_failure_no_retransmit {σ : Type} (c : Codes) (h : c.WF)
    (rec : SSLRecord) (ctx : SSLContext σ) (hd : ctx.isDTLS = true)
    (hraw : readStatus ctx rec = c.errSSLRecordBadRecordMac ∨
            readStatus ctx rec = c.errSSLRecordDecryptionFail) :
    retransmitCount (SSLReadRecord c rec ctx).trace = 0 ∧
    (SSLReadRecord c rec ctx).trace = [Event.read] := by
  obtain ⟨-, hR⟩ := h.rev
  simp only [List.nodup_cons, List.mem_cons, List.mem_singleton, not_or,
    List.not_mem_nil, not_false_eq_true, and_true, List.nodup_nil] at hR
  rcases hraw with hraw | hraw
  · have hte := errorTranslate_badRecordMac h
    rw [← hraw] at hte
    rw [SSLReadRecord_of_translate c rec ctx _ _ hte]
    simp [hR, hd, retransmitCount]
  · have hte := errorTranslate_decryptionFail h
    rw [← hraw] at hte
    rw [SSLReadRecord_of_translate c rec ctx _ _ hte]
    simp [hR, hd, retransmitCount]

/-- The amended C2 at a DTLS context whose transport reports bad-record-mac. -/
theorem C2_dtls_mac_failure_no_retransmit_witness :
    darwinCodes.WF ∧
    retransmitCount (SSLReadRecord darwinCodes emptyRecord
      (stubCtx darwinCodes.errSSLRecordBadRecordMac sampleRecord true)).trace = 0 ∧
    (SSLReadRecord darwinCodes emptyRecord
      (stubCtx darwinCodes.errSSLRecordBadRecordMac sampleRecord true)).trace
      = [Event.read] :=
  ⟨by decide,
   C2_dtls_mac_failure_no_retransmit darwinCodes (by decide) emptyRecord
     (stubCtx darwinCodes.errSSLRecordBadRecordMac sampleRecord true) rfl
     (Or.inl rfl)⟩

/-- C3: on a DTLS context, when the transport's read reports bad-record-mac or
decryption-fail, `SSLReadRecord` sends no alert and returns
`errSSLUnexpectedRecord` instead of the translated code. -/
theorem C3_dtls_mac_failure_no_alert {σ : Type} (c : Codes) (h : c.WF)
    (rec : SSLRecord) (ctx : SSLContext σ) (hd : ctx.isDTLS = true)
    (hraw : readStatus ctx rec = c.errSSLRecordBadRecordMac ∨
            readStatus ctx rec = c.errSSLRecordDecryptionFail) :
    alertsOf (SSLReadRecord c rec ctx).trace = [] ∧
    (SSLReadRecord c rec ctx).err = c.errSSLUnexpectedRecord := by
  obtain ⟨-, hR⟩ := h.rev
  simp only [List.nodup_cons, List.mem_cons, List.mem_singleton, not_or,
    List.not_mem_nil, not_false_eq_true, and_true, List.nodup_nil] at hR
  rcases hraw with hraw | hraw
  · have hte := errorTranslate_badRecordMac h
    rw [← hraw] at hte
    rw [SSLReadRecord_of_translate c rec ctx _ _ hte]
    simp [hR, hd, alertsOf]
  · have hte := errorTranslate_decryptionFail h
    rw [← hraw] at hte
    rw [SSLReadRecord_of_translate c rec ctx _ _ hte]
    simp [hR, hd, alertsOf]

/-- C3 at a DTLS context whose transport reports decryption-fail. -/
theorem C3_dtls_mac_failure_no_alert_witness :
    darwinCodes.WF ∧
    alertsOf (SSLReadRecord darwinCodes emptyRecord
      (stubCtx darwinCodes.errSSLRecordDecryptionFail sampleRecord true)).trace = [] ∧
    (SSLReadRecord darwinCodes emptyRecord
      (stubCtx darwinCodes.errSSLRecordDecryptionFail sampleRecord true)).err
      = darwinCodes.errSSLUnexpectedRecord :=
  ⟨by decide,
   C3_dtls_mac_failure_no_alert darwinCodes (by decide) emptyRecord
     (stubCtx darwinCodes.errSSLRecordDecryptionFail sampleRecord true) rfl
     (Or.inr rfl)⟩

/-- C4: on stream contexts, a read whose transport status is decryption-fail
and a read whose transport status is bad-record-mac leave the same trace of
calls: in each run exactly one `SSLFatalSessionAlert`, of kind
`SSL_AlertBadRecordMac`, and no `DTLSRetransmit`. -/
theorem C4_stream_alert_indistinguishable {σ : Type} (c : Codes) (h : c.WF)
    (rec₁ rec₂ : SSLRecord) (ctx₁ ctx₂ : SSLContext σ)
    (hs₁ : ctx₁.isDTLS = false) (hs₂ : ctx₂.isDTLS = false)
    (hraw₁ : readStatus ctx₁ rec₁ = c.errSSLRecordDecryptionFail)
    (hraw₂ : readStatus ctx₂ rec₂ = c.errSSLRecordBadRecordMac) :
    (SSLReadRecord c rec₁ ctx₁).trace = (SSLReadRecord c rec₂ ctx₂).trace ∧
    alertsOf (SSLReadRecord c rec₁ ctx₁).trace
      = [AlertDescription.SSL_AlertBadRecordMac] ∧
    alertsOf (SSLReadRecord c rec₂ ctx₂).trace
      = [AlertDescription.SSL_AlertBadRecordMac] ∧
    retransmitCount (SSLReadRecord c rec₁ ctx₁).trace = 0 ∧
    retransmitCount (SSLReadRecord c rec₂ ctx₂).trace = 0 := by
  obtain ⟨-, hR⟩ := h.rev
  simp only [List.nodup_cons, List.mem_cons, List.mem_singleton, not_or,
    List.not_mem_nil, not_false_eq_true, and_true, List.nodup_nil] at hR
  have hte₁ := errorTranslate_decryptionFail h
  rw [← hraw₁] at hte₁
  have hte₂ := errorTranslate_badRecordMac h
  rw [← hraw₂] at hte₂
  rw [SSLReadRecord_of_translate c rec₁ ctx₁ _ _ hte₁,
    SSLReadRecord_of_translate c rec₂ ctx₂ _ _ hte₂]
  simp [hR, hs₁, hs₂, alertsOf, retransmitCount]

/-- C4 at two stream contexts over the test-double transport. -/
theorem C4_stream_alert_indistinguishable_witness :
    darwinCodes.WF ∧
    (SSLReadRecord darwinCodes emptyRecord
      (stubCtx darwinCodes.errSSLRecordDecryptionFail sampleRecord false)).trace
    = (SSLReadRecord darwinCodes emptyRecord
      (stubCtx darwinCodes.errSSLRecordBadRecordMac sampleRecord false)).trace :=
  ⟨by decide,
   (C4_stream_alert_indistinguishable darwinCodes (by decide) emptyRecord emptyRecord
     (stubCtx darwinCodes.errSSLRecordDecryptionFail sampleRecord false)
     (stubCtx darwinCodes.errSSLRecordBadRecordMac sampleRecord false)
     rfl rfl rfl rfl).1⟩

/-- C5, as stated, fails: on a stream context whose transport reports
decryption-fail, `SSLReadRecord` returns `errSSLDecryptionFail`, which is not
`errSSLBadRecordMac`. -/
theorem C5_counterexample :
    (SSLReadRecord darwinCodes emptyRecord
      (stubCtx darwinCodes.errSSLRecordDecryptionFail sampleRecord false)).err
      = darwinCodes.errSSLDecryptionFail ∧
    (SSLReadRecord darwinCodes emptyRecord
      (stubCtx darwinCodes.errSSLRecordDecryptionFail sampleRecord false)).err
      ≠ darwinCodes.errSSLBadRecordMac := by
  decide

/-- C5, amended: on a stream context `SSLReadRecord` returns the translated
code unchanged, `errSSLBadRecordMac` for a bad-record-mac transport status and
`errSSLDecryptionFail` for a decryption-fail transport status. -/
theorem C5_stream_returns_translated {σ : Type} (c : Codes) (h : c.WF)
    (rec : SSLRecord) (ctx : SSLContext σ) (hs : ctx.isDTLS = false) :
    (readStatus ctx rec = c.errSSLRecordBadRecordMac →
      (SSLReadRecord c rec ctx).err = c.errSSLBadRecordMac) ∧
    (readStatus ctx rec = c.errSSLRecordDecryptionFail →
      (SSLReadRecord c rec ctx).err = c.errSSLDecryptionFail) := by
  obtain ⟨-, hR⟩ := h.rev
  simp only [List.nodup_cons, List.mem_cons, List.mem_singleton, not_or,
    List.not_mem_nil, not_false_eq_true, and_true, List.nodup_nil] at hR
  constructor
  · intro hraw
    have hte := errorTranslate_badRecordMac h
    rw [← hraw] at hte
    rw [SSLReadRecord_of_translate c rec ctx _ _ hte]
    simp [hR, hs]
  · intro hraw
    have hte := errorTranslate_decryptionFail h
    rw [← hraw] at hte
    rw [SSLReadRecord_of_translate c rec ctx _ _ hte]
    simp [hR, hs]

/-- The amended C5 at a stream context whose transport reports
decryption-fail. -/
theorem C5_stream_returns_translated_witness :
    darwinCodes.WF ∧
    (SSLReadRecord darwinCodes emptyRecord
      (stubCtx darwinCodes.errSSLRecordDecryptionFail sampleRecord false)).err
      = darwinCodes.errSSLDecryptionFail :=
  ⟨by decide,
   (C5_stream_returns_translated darwinCodes (by decide) emptyRecord
     (stubCtx darwinCodes.errSSLRecordDecryptionFail sampleRecord false) rfl).2 rfl⟩

/-- C6, as stated, fails: the value of `errSSLWouldBlock` is none of the eleven
case labels of `errorTranslate`, so it passes through unchanged and then meets
the `case errSSLWouldBlock` of `SSLReadRecord`: no alert is sent. -/
theorem C6_counterexample :
    darwinCodes.errSSLWouldBlock ∉ darwinCodes.translateLabels ∧
    alertsOf (SSLReadRecord darwinCodes emptyRecord
      (stubCtx darwinCodes.errSSLWouldBlock sampleRecord false)).trace = [] := by
  decide

/-- C6, amended: for every raw status that is none of the eleven case labels
of `errorTranslate` and none of the session codes `errSSLWouldBlock`,
`errSSLUnexpectedRecord`, `errSSLDecryptionFail`, `errSSLBadRecordMac`,
`errSSLInternal`, `errSSLRecordOverflow`, and for both protocol variants,
`SSLReadRecord` sends exactly one alert, of kind `SSL_AlertCloseNotify`,
triggers no retransmission, and returns the raw status unchanged. -/
theorem C6_unrecognized_close_notify {σ : Type} (c : Codes)
    (rec : SSLRecord) (ctx : SSLContext σ)
    (hraw : readStatus ctx rec ∉ c.translateLabels)
    (hses : readStatus ctx rec ∉
      [c.errSSLWouldBlock, c.errSSLUnexpectedRecord, c.errSSLDecryptionFail,
       c.errSSLBadRecordMac, c.errSSLInternal, c.errSSLRecordOverflow]) :
    alertsOf (SSLReadRecord c rec ctx).trace = [AlertDescription.SSL_AlertCloseNotify] ∧
    retransmitCount (SSLReadRecord c rec ctx).trace = 0 ∧
    (SSLReadRecord c rec ctx).err = readStatus ctx rec := by
  have hte := errorTranslate_unrecognized c (readStatus ctx rec) hraw
  rw [SSLReadRecord_of_translate c rec ctx _ _ hte]
  simp only [Codes.translateLabels, List.mem_cons, List.mem_singleton, not_or,
    List.not_mem_nil, or_false] at hraw hses
  by_cases h5 : readStatus ctx rec = c.errSSLClosedAbort ∨
      readStatus ctx rec = c.errSSLConnectionRefused
  · simp [hraw, hses, h5, alertsOf, retransmitCount]
  · simp [hraw, hses, h5, alertsOf, retransmitCount]

/-- The amended C6 at the unmodelled status 9999, on a DTLS context. -/
theorem C6_unrecognized_close_notify_witness :
    (9999 : Int) ∉ darwinCodes.translateLabels ∧
    alertsOf (SSLReadRecord darwinCodes emptyRecord
      (stubCtx 9999 sampleRecord true)).trace = [AlertDescription.SSL_AlertCloseNotify] ∧
    retransmitCount (SSLReadRecord darwinCodes emptyRecord
      (stubCtx 9999 sampleRecord true)).trace = 0 ∧
    (SSLReadRecord darwinCodes emptyRecord (stubCtx 9999 sampleRecord true)).err = 9999 :=
  ⟨by decide,
   C6_unrecognized_close_notify darwinCodes emptyRecord (stubCtx 9999 sampleRecord true)
     (by decide) (by decide)⟩

/-- C7, as stated, fails: for the unmodelled status 9999 one call of
`SSLReadRecord` makes two `sslErrorLog` calls, one in `errorTranslate` and one
in the `default` branch of `SSLReadRecord`. -/
theorem C7_counterexample :
    (9999 : Int) ∉ darwinCodes.translateLabels ∧
    logsOf (SSLReadRecord darwinCodes emptyRecord
      (stubCtx 9999 sampleRecord false)).trace
      = [(LogSite.sslErrorTranslate, 9999), (LogSite.SSLReadRecord, 9999)] ∧
    (logsOf (SSLReadRecord darwinCodes emptyRecord
      (stubCtx 9999 sampleRecord false)).trace).length ≠ 1 := by
  decide

/-- C7, amended: when the transport's read returns a status that is none of the
eleven case labels of `errorTranslate` and none of the nine case labels of
`SSLReadRecord`, one call of `SSLReadRecord` produces exactly two log entries
carrying that status: first the one of `errorTranslate`, then the one of the
`default` branch of `SSLReadRecord`. -/
theorem C7_unrecognized_logged_twice {σ : Type} (c : Codes)
    (rec : SSLRecord) (ctx : SSLContext σ)
    (hraw : readStatus ctx rec ∉ c.translateLabels)
    (hses : readStatus ctx rec ∉ c.readLabels) :
    logsOf (SSLReadRecord c rec ctx).trace =
      [(LogSite.sslErrorTranslate, readStatus ctx rec),
       (LogSite.SSLReadRecord, readStatus ctx rec)] := by
  have hte := errorTranslate_unrecognized c (readStatus ctx rec) hraw
  rw [SSLReadRecord_of_translate c rec ctx _ _ hte]
  simp only [Codes.readLabels, List.mem_cons, List.mem_singleton, not_or,
    List.not_mem_nil, or_false] at hses
  simp [hses, logsOf]

/-- The amended C7 at the unmodelled status 9999, on a stream context. -/
theorem C7_unrecognized_logged_twice_witness :
    (9999 : Int) ∉ darwinCodes.readLabels ∧
    (logsOf (SSLReadRecord darwinCodes emptyRecord
      (stubCtx 9999 sampleRecord false)).trace).length = 2 :=
  ⟨by decide,
   congrArg List.length
     (C7_unrecognized_logged_twice darwinCodes emptyRecord
       (stubCtx 9999 sampleRecord false) (by decide) (by decide))⟩

/-- C8: for both protocol variants, when the transport's read reports success
or would-block, `SSLReadRecord` returns success (respectively
`errSSLWouldBlock`), makes no alert, retransmission or log call (the
transport's `read` is its only call), and the caller's record is the one the
transport produced. -/
theorem C8_success_and_would_block_silent {σ : Type} (c : Codes) (h : c.WF)
    (rec : SSLRecord) (ctx : SSLContext σ)
    (hraw : readStatus ctx rec = c.errSecSuccess ∨
            readStatus ctx rec = c.errSSLRecordWouldBlock) :
    (readStatus ctx rec = c.errSecSuccess →
      (SSLReadRecord c rec ctx).err = c.errSecSuccess) ∧
    (readStatus ctx rec = c.errSSLRecordWouldBlock →
      (SSLReadRecord c rec ctx).err = c.errSSLWouldBlock) ∧
    alertsOf (SSLReadRecord c rec ctx).trace = [] ∧
    retransmitCount (SSLReadRecord c rec ctx).trace = 0 ∧
    logsOf (SSLReadRecord c rec ctx).trace = [] ∧
    (SSLReadRecord c rec ctx).trace = [Event.read] ∧
    (SSLReadRecord c rec ctx).record = (ctx.recFuncs.read ctx.recCtx rec).record := by
  have hne : c.errSSLRecordWouldBlock ≠ c.errSecSuccess := by
    obtain ⟨hT, -⟩ := h.rev
    simp only [List.nodup_cons, List.mem_cons, List.mem_singleton, not_or] at hT
    exact hT.2.2.2.2.2.2.2.2.1.2.1
  rcases hraw with hraw | hraw
  · have hte := errorTranslate_success c
    rw [← hraw] at hte
    rw [SSLReadRecord_of_translate c rec ctx _ _ hte]
    simp [hraw, hne.symm, alertsOf, retransmitCount, logsOf]
  · have hte := errorTranslate_wouldBlock h
    rw [← hraw] at hte
    rw [SSLReadRecord_of_translate c rec ctx _ _ hte]
    simp [hraw, hne, alertsOf, retransmitCount, logsOf]

/-- C8 at a DTLS context whose transport reports success with a payload. -/
theorem C8_success_and_would_block_silent_witness :
    darwinCodes.WF ∧
    (SSLReadRecord darwinCodes emptyRecord
      (stubCtx darwinCodes.errSecSuccess sampleRecord true)).err = darwinCodes.errSecSuccess ∧
    (SSLReadRecord darwinCodes emptyRecord
      (stubCtx darwinCodes.errSecSuccess sampleRecord true)).trace = [Event.read] ∧
    (SSLReadRecord darwinCodes emptyRecord
      (stubCtx darwinCodes.errSecSuccess sampleRecord true)).record = sampleRecord :=
  ⟨by decide,
   (C8_success_and_would_block_silent darwinCodes (by decide) emptyRecord
     (stubCtx darwinCodes.errSecSuccess sampleRecord true) (Or.inl rfl)).1 rfl,
   (C8_success_and_would_block_silent darwinCodes (by decide) emptyRecord
     (stubCtx darwinCodes.errSecSuccess sampleRecord true) (Or.inl rfl)).2.2.2.2.2.1,
   (C8_success_and_would_block_silent darwinCodes (by decide) emptyRecord
     (stubCtx darwinCodes.errSecSuccess sampleRecord true) (Or.inl rfl)).2.2.2.2.2.2⟩

/-- C9: for both protocol variants, when the transport's read reports
unexpected-record, `SSLReadRecord` calls `DTLSRetransmit` exactly once, sends
no alert, and returns `errSSLUnexpectedRecord`. -/
theorem C9_unexpected_record_retransmits {σ : Type} (c : Codes) (h : c.WF)
    (rec : SSLRecord) (ctx : SSLContext σ)
    (hraw : readStatus ctx rec = c.errSSLRecordUnexpectedRecord) :
    retransmitCount (SSLReadRecord c rec ctx).trace = 1 ∧
    alertsOf (SSLReadRecord c rec ctx).trace = [] ∧
    (SSLReadRecord c rec ctx).err = c.errSSLUnexpectedRecord := by
  obtain ⟨-, hR⟩ := h.rev
  simp only [List.nodup_cons, List.mem_cons, List.mem_singleton, not_or,
    List.not_mem_nil, not_false_eq_true, and_true, List.nodup_nil] at hR
  have hte := errorTranslate_unexpectedRecord h
  rw [← hraw] at hte
  rw [SSLReadRecord_of_translate c rec ctx _ _ hte]
  simp [hR, alertsOf, retransmitCount]

/-- C9 at a stream context whose transport reports unexpected-record. -/
theorem C9_unexpected_record_retransmits_witness :
    darwinCodes.WF ∧
    retransmitCount (SSLReadRecord darwinCodes emptyRecord
      (stubCtx darwinCodes.errSSLRecordUnexpectedRecord sampleRecord false)).trace = 1 ∧
    alertsOf (SSLReadRecord darwinCodes emptyRecord
      (stubCtx darwinCodes.errSSLRecordUnexpectedRecord sampleRecord false)).trace = [] ∧
    (SSLReadRecord darwinCodes emptyRecord
      (stubCtx darwinCodes.errSSLRecordUnexpectedRecord sampleRecord false)).err
      = darwinCodes.errSSLUnexpectedRecord :=
  ⟨by decide,
   C9_unexpected_record_retransmits darwinCodes (by decide) emptyRecord
     (stubCtx darwinCodes.errSSLRecordUnexpectedRecord sampleRecord false) rfl⟩

/-- C10: for both protocol variants, when the transport's read reports
internal, record-overflow, closed-abort or connection-refused, `SSLReadRecord`
sends exactly one alert, of kind `SSL_AlertInternalError`,
`SSL_AlertRecordOverflow`, `SSL_AlertCloseNotify`, `SSL_AlertCloseNotify`
respectively, triggers no retransmission, and returns the translated code. -/
theorem C10_fatal_statuses_alert_once {σ : Type} (c : Codes) (h : c.WF)
    (rec : SSLRecord) (ctx : SSLContext σ) :
    (readStatus ctx rec = c.errSSLRecordInternal →
      alertsOf (SSLReadRecord c rec ctx).trace = [AlertDescription.SSL_AlertInternalError] ∧
      retransmitCount (SSLReadRecord c rec ctx).trace = 0 ∧
      (SSLReadRecord c rec ctx).err = c.errSSLInternal) ∧
    (readStatus ctx rec = c.errSSLRecordRecordOverflow →
      alertsOf (SSLReadRecord c rec ctx).trace = [AlertDescription.SSL_AlertRecordOverflow] ∧
      retransmitCount (SSLReadRecord c rec ctx).trace = 0 ∧
      (SSLReadRecord c rec ctx).err = c.errSSLRecordOverflow) ∧
    (readStatus ctx rec = c.errSSLRecordClosedAbort →
      alertsOf (SSLReadRecord c rec ctx).trace = [AlertDescription.SSL_AlertCloseNotify] ∧
      retransmitCount (SSLReadRecord c rec ctx).trace = 0 ∧
      (SSLReadRecord c rec ctx).err = c.errSSLClosedAbort) ∧
    (readStatus ctx rec = c.errSSLRecordConnectionRefused →
      alertsOf (SSLReadRecord c rec ctx).trace = [AlertDescription.SSL_AlertCloseNotify] ∧
      retransmitCount (SSLReadRecord c rec ctx).trace = 0 ∧
      (SSLReadRecord c rec ctx).err = c.errSSLConnectionRefused) := by
  obtain ⟨-, hR⟩ := h.rev
  simp only [List.nodup_cons, List.mem_cons, List.mem_singleton, not_or,
    List.not_mem_nil, not_false_eq_true, and_true, List.nodup_nil] at hR
  refine ⟨fun hraw => ?_, fun hraw => ?_, fun hraw => ?_, fun hraw => ?_⟩
  · have hte := errorTranslate_internal h
    rw [← hraw] at hte
    rw [SSLReadRecord_of_translate c rec ctx _ _ hte]
    simp [hR, alertsOf, retransmitCount]
  · have hte := errorTranslate_recordOverflow h
    rw [← hraw] at hte
    rw [SSLReadRecord_of_translate c rec ctx _ _ hte]
    simp [hR, alertsOf, retransmitCount]
  · have hte := errorTranslate_closedAbort h
    rw [← hraw] at hte
    rw [SSLReadRecord_of_translate c rec ctx _ _ hte]
    simp [hR, alertsOf, retransmitCount]
  · have hte := errorTranslate_connectionRefused h
    rw [← hraw] at hte
    rw [SSLReadRecord_of_translate c rec ctx _ _ hte]
    simp [hR, alertsOf, retransmitCount]

/-- C10 at contexts whose transport reports internal (stream) and
connection-refused (DTLS). -/
theorem C10_fatal_statuses_alert_once_witness :
    darwinCodes.WF ∧
    (alertsOf (SSLReadRecord darwinCodes emptyRecord
        (stubCtx darwinCodes.errSSLRecordInternal sampleRecord false)).trace
        = [AlertDescription.SSL_AlertInternalError] ∧
      retransmitCount (SSLReadRecord darwinCodes emptyRecord
        (stubCtx darwinCodes.errSSLRecordInternal sampleRecord false)).trace = 0 ∧
      (SSLReadRecord darwinCodes emptyRecord
        (stubCtx darwinCodes.errSSLRecordInternal sampleRecord false)).err
        = darwinCodes.errSSLInternal) ∧
    (alertsOf (SSLReadRecord darwinCodes emptyRecord
        (stubCtx darwinCodes.errSSLRecordConnectionRefused sampleRecord true)).trace
        = [AlertDescription.SSL_AlertCloseNotify] ∧
      retransmitCount (SSLReadRecord darwinCodes emptyRecord
        (stubCtx darwinCodes.errSSLRecordConnectionRefused sampleRecord true)).trace = 0 ∧
      (SSLReadRecord darwinCodes emptyRecord
        (stubCtx darwinCodes.errSSLRecordConnectionRefused sampleRecord true)).err
        = darwinCodes.errSSLConnectionRefused) :=
  ⟨by decide,
   (C10_fatal_statuses_alert_once darwinCodes (by decide) emptyRecord
     (stubCtx darwinCodes.errSSLRecordInternal sampleRecord false)).1 rfl,
   (C10_fatal_statuses_alert_once darwinCodes (by decide) emptyRecord
     (stubCtx darwinCodes.errSSLRecordConnectionRefused sampleRecord true)).2.2.2 rfl⟩

/-- C11: whenever `SSLReadRecord` sends an alert, the status it returns is
`errorTranslate` of the raw transport status; the alert never replaces or
rewrites the translated code. -/
theorem C11_alert_keeps_translated_status {σ : Type} (c : Codes)
    (rec : SSLRecord) (ctx : SSLContext σ)
    (ha : alertsOf (SSLReadRecord c rec ctx).trace ≠ []) :
    (SSLReadRecord c rec ctx).err = (errorTranslate c (readStatus ctx rec)).1 := by
  have hl := alertsOf_errorTranslate c (readStatus ctx rec)
  rcases hte : errorTranslate c (readStatus ctx rec) with ⟨t, l⟩
  rw [hte] at hl
  simp only at hl
  rw [SSLReadRecord_of_translate c rec ctx t l hte] at ha ⊢
  simp only [alertsOf, alertsOf_append, hl, List.nil_append] at ha
  by_cases h0 : t = c.errSecSuccess ∨ t = c.errSSLWouldBlock
  · simp [h0]
  by_cases h1 : t = c.errSSLUnexpectedRecord
  · simp [h0, h1]
  by_cases h2 : t = c.errSSLDecryptionFail ∨ t = c.errSSLBadRecordMac
  · cases hd : ctx.isDTLS
    · simp [h0, h1, h2]
    · simp [h0, h1, h2, hd, alertsOf] at ha
  · simp [h0, h1, h2]

/-- C11 at a stream context whose transport reports decryption-fail: an alert
is sent and the returned status is the translated `errSSLDecryptionFail`. -/
theorem C11_alert_keeps_translated_status_witness :
    alertsOf (SSLReadRecord darwinCodes emptyRecord
      (stubCtx darwinCodes.errSSLRecordDecryptionFail sampleRecord false)).trace ≠ [] ∧
    (SSLReadRecord darwinCodes emptyRecord
      (stubCtx darwinCodes.errSSLRecordDecryptionFail sampleRecord false)).err
      = (errorTranslate darwinCodes darwinCodes.errSSLRecordDecryptionFail).1 :=
  ⟨by decide,
   C11_alert_keeps_translated_status darwinCodes emptyRecord
     (stubCtx darwinCodes.errSSLRecordDecryptionFail sampleRecord false) (by decide)⟩

/-- C12: for every raw transport read status and both protocol variants, one
call of `SSLReadRecord` makes at most one call in total to
`SSLFatalSessionAlert` and `DTLSRetransmit`. -/
theorem C12_at_most_one_side_effect {σ : Type} (c : Codes)
    (rec : SSLRecord) (ctx : SSLContext σ) :
    sideEffectCount (SSLReadRecord c rec ctx).trace ≤ 1 := by
  have hl := alertsOf_errorTranslate c (readStatus ctx rec)
  have hr := retransmitCount_errorTranslate c (readStatus ctx rec)
  rcases hte : errorTranslate c (readStatus ctx rec) with ⟨t, l⟩
  rw [hte] at hl hr
  simp only at hl hr
  rw [SSLReadRecord_of_translate c rec ctx t l hte]
  simp only [sideEffectCount, alertsOf, retransmitCount, alertsOf_append,
    retransmitCount_append, hl, hr]
  by_cases h0 : t = c.errSecSuccess ∨ t = c.errSSLWouldBlock
  · simp [if_pos h0, alertsOf, retransmitCount]
  by_cases h1 : t = c.errSSLUnexpectedRecord
  · simp [if_neg h0, if_pos h1, alertsOf, retransmitCount]
  by_cases h2 : t = c.errSSLDecryptionFail ∨ t = c.errSSLBadRecordMac
  · cases hd : ctx.isDTLS <;>
      simp [if_neg h0, if_neg h1, if_pos h2, alertsOf, retransmitCount]
  by_cases h3 : t = c.errSSLInternal
  · simp [if_neg h0, if_neg h1, if_neg h2, if_pos h3, alertsOf, retransmitCount]
  by_cases h4 : t = c.errSSLRecordOverflow
  · simp [if_neg h0, if_neg h1, if_neg h2, if_neg h3, if_pos h4, alertsOf, retransmitCount]
  by_cases h5 : t = c.errSSLClosedAbort ∨ t = c.errSSLConnectionRefused
  · simp [if_neg h0, if_neg h1, if_neg h2, if_neg h3, if_neg h4, if_pos h5, alertsOf,
      retransmitCount]
  · simp [if_neg h0, if_neg h1, if_neg h2, if_neg h3, if_neg h4, if_neg h5, alertsOf,
      retransmitCount]

/-! ## The write path, the queue service and free -/

/-- C13: for every status the transport's write returns and both protocol
variants, `SSLWriteRecord` makes no `SSLFatalSessionAlert` and no
`DTLSRetransmit` call, and returns exactly `errorTranslate` of that status. -/
theorem C13_write_no_alert_no_retransmit {σ : Type} (c : Codes)
    (rec : SSLRecord) (ctx : SSLContext σ) :
    alertsOf (SSLWriteRecord c rec ctx).trace = [] ∧
    retransmitCount (SSLWriteRecord c rec ctx).trace = 0 ∧
    (SSLWriteRecord c rec ctx).err
      = (errorTranslate c (ctx.recFuncs.write ctx.recCtx rec).status).1 := by
  have hl := alertsOf_errorTranslate c (ctx.recFuncs.write ctx.recCtx rec).status
  have hr := retransmitCount_errorTranslate c (ctx.recFuncs.write ctx.recCtx rec).status
  refine ⟨?_, ?_, rfl⟩
  · simp only [SSLWriteRecord, alertsOf_append, hl, apply_ite alertsOf]
    simp [alertsOf]
  · simp only [SSLWriteRecord, retransmitCount_append, hr, apply_ite retransmitCount]
    simp [retransmitCount]

/-! ## The error translator -/

/-- C14: `errorTranslate` maps each of the eleven recognized transport codes to
the session code of the same name, and on these eleven codes it is one-to-one:
recognized codes with the same translation are the same code. -/
theorem C14_translate_by_name_one_to_one (c : Codes) (h : c.WF)
    (hS : c.SessionDistinct) :
    ((errorTranslate c c.errSecSuccess).1 = c.errSecSuccess ∧
     (errorTranslate c c.errSSLRecordWouldBlock).1 = c.errSSLWouldBlock ∧
     (errorTranslate c c.errSSLRecordInternal).1 = c.errSSLInternal ∧
     (errorTranslate c c.errSSLRecordProtocol).1 = c.errSSLProtocol ∧
     (errorTranslate c c.errSSLRecordNegotiation).1 = c.errSSLNegotiation ∧
     (errorTranslate c c.errSSLRecordClosedAbort).1 = c.errSSLClosedAbort ∧
     (errorTranslate c c.errSSLRecordConnectionRefused).1 = c.errSSLConnectionRefused ∧
     (errorTranslate c c.errSSLRecordDecryptionFail).1 = c.errSSLDecryptionFail ∧
     (errorTranslate c c.errSSLRecordBadRecordMac).1 = c.errSSLBadRecordMac ∧
     (errorTranslate c c.errSSLRecordRecordOverflow).1 = c.errSSLRecordOverflow ∧
     (errorTranslate c c.errSSLRecordUnexpectedRecord).1 = c.errSSLUnexpectedRecord) ∧
    (∀ r₁ r₂ : Int, r₁ ∈ c.translateLabels → r₂ ∈ c.translateLabels →
      (errorTranslate c r₁).1 = (errorTranslate c r₂).1 → r₁ = r₂) := by
  have e0 := errorTranslate_success c
  have e1 := errorTranslate_internal h
  have e2 := errorTranslate_wouldBlock h
  have e3 := errorTranslate_protocol h
  have e4 := errorTranslate_negotiation h
  have e5 := errorTranslate_closedAbort h
  have e6 := errorTranslate_connectionRefused h
  have e7 := errorTranslate_decryptionFail h
  have e8 := errorTranslate_badRecordMac h
  have e9 := errorTranslate_recordOverflow h
  have e10 := errorTranslate_unexpectedRecord h
  refine ⟨by simp only [e0, e1, e2, e3, e4, e5, e6, e7, e8, e9, e10, and_self], ?_⟩
  have hF : c.translateResults.Nodup := hS
  have hB := List.nodup_reverse.mpr hF
  simp only [Codes.translateResults, List.reverse_cons, List.reverse_nil, List.nil_append,
    List.cons_append, List.nodup_cons, List.mem_cons, List.mem_singleton, not_or,
    List.not_mem_nil, not_false_eq_true, and_true, List.nodup_nil] at hF hB
  intro r₁ r₂ h₁ h₂ he
  simp only [Codes.translateLabels, List.mem_cons, List.mem_singleton, List.not_mem_nil,
    or_false] at h₁ h₂
  rcases h₁ with rfl | rfl | rfl | rfl | rfl | rfl | rfl | rfl | rfl | rfl | rfl <;>
    rcases h₂ with rfl | rfl | rfl | rfl | rfl | rfl | rfl | rfl | rfl | rfl | rfl <;>
    first
    | rfl
    | (exfalso
       simp only [e0, e1, e2, e3, e4, e5, e6, e7, e8, e9, e10] at he
       simp [hF, hB] at he)

/-- C14 at the platform's constants. -/
theorem C14_translate_by_name_one_to_one_witness :
    darwinCodes.WF ∧ darwinCodes.SessionDistinct ∧
    (errorTranslate darwinCodes darwinCodes.errSSLRecordProtocol).1
      = darwinCodes.errSSLProtocol ∧
    (errorTranslate darwinCodes darwinCodes.errSSLRecordNegotiation).1
      = darwinCodes.errSSLNegotiation :=
  ⟨by decide, by decide,
   (C14_translate_by_name_one_to_one darwinCodes (by decide) (by decide)).1.2.2.2.1,
   (C14_translate_by_name_one_to_one darwinCodes (by decide) (by decide)).1.2.2.2.2.1⟩

/-- A recognized status is translated without a log entry. -/
theorem errorTranslate_trace_of_mem (c : Codes) (r : Int) (h : r ∈ c.translateLabels) :
    (errorTranslate c r).2 = [] := by
  simp only [Codes.translateLabels, List.mem_cons, List.mem_singleton, List.not_mem_nil,
    or_false] at h
  simp only [errorTranslate, apply_ite Prod.snd]
  rcases h with h | h | h | h | h | h | h | h | h | h | h <;> simp [h]

/-- C15: for every integer input, `errorTranslate` emits a log entry if and
only if the input is none of the eleven recognized transport codes, and in that
case it returns the input unchanged, with exactly that one log entry. -/
theorem C15_log_iff_unrecognized (c : Codes) (r : Int) :
    (logsOf (errorTranslate c r).2 ≠ [] ↔ r ∉ c.translateLabels) ∧
    (r ∉ c.translateLabels →
      (errorTranslate c r).1 = r ∧
      logsOf (errorTranslate c r).2 = [(LogSite.sslErrorTranslate, r)]) := by
  by_cases hm : r ∈ c.translateLabels
  · simp [hm, errorTranslate_trace_of_mem c r hm, logsOf]
  · simp [hm, errorTranslate_unrecognized c r hm, logsOf]

/-- C16: for every status the transport's `serviceWriteQueue` returns and both
protocol variants, `SSLServiceWriteQueue` returns exactly `errorTranslate` of
that status and makes no `SSLFatalSessionAlert` and no `DTLSRetransmit` call. -/
theorem C16_service_write_queue_translates_only {σ : Type} (c : Codes)
    (rec : SSLRecord) (ctx : SSLContext σ) :
    (SSLServiceWriteQueue c rec ctx).err
      = (errorTranslate c (ctx.recFuncs.serviceWriteQueue ctx.recCtx).status).1 ∧
    alertsOf (SSLServiceWriteQueue c rec ctx).trace = [] ∧
    retransmitCount (SSLServiceWriteQueue c rec ctx).trace = 0 := by
  have hl := alertsOf_errorTranslate c (ctx.recFuncs.serviceWriteQueue ctx.recCtx).status
  have hr := retransmitCount_errorTranslate c
    (ctx.recFuncs.serviceWriteQueue ctx.recCtx).status
  refine ⟨rfl, ?_, ?_⟩
  · simp only [SSLServiceWriteQueue, alertsOf_append, hl]
    simp [alertsOf]
  · simp only [SSLServiceWriteQueue, retransmitCount_append, hr]
    simp [retransmitCount]

/-- C17: `SSLFreeRecord` makes exactly one call, the transport's `free` with
the given record (so no alert, retransmission or log call), and returns the
transport's status verbatim, not translated; in particular it returns success
whenever the transport's `free` does. -/
theorem C17_free_delegates_verbatim {σ : Type} (rec : SSLRecord) (ctx : SSLContext σ) :
    (SSLFreeRecord rec ctx).trace = [Event.free rec] ∧
    alertsOf (SSLFreeRecord rec ctx).trace = [] ∧
    retransmitCount (SSLFreeRecord rec ctx).trace = 0 ∧
    logsOf (SSLFreeRecord rec ctx).trace = [] ∧
    (SSLFreeRecord rec ctx).err = (ctx.recFuncs.free ctx.recCtx rec).status ∧
    (∀ c : Codes, (ctx.recFuncs.free ctx.recCtx rec).status = c.errSecSuccess →
      (SSLFreeRecord rec ctx).err = c.errSecSuccess) :=
  ⟨rfl, rfl, rfl, rfl, rfl, fun _ hc => hc⟩

/-! ## Properties across the adapter -/

/-- The alerts of one `SSLReadRecord` call: none, or a single one of four
kinds. -/
theorem alertsOf_SSLReadRecord {σ : Type} (c : Codes) (rec : SSLRecord)
    (ctx : SSLContext σ) :
    alertsOf (SSLReadRecord c rec ctx).trace = [] ∨
    alertsOf (SSLReadRecord c rec ctx).trace = [AlertDescription.SSL_AlertBadRecordMac] ∨
    alertsOf (SSLReadRecord c rec ctx).trace = [AlertDescription.SSL_AlertInternalError] ∨
    alertsOf (SSLReadRecord c rec ctx).trace = [AlertDescription.SSL_AlertRecordOverflow] ∨
    alertsOf (SSLReadRecord c rec ctx).trace = [AlertDescription.SSL_AlertCloseNotify] := by
  have hl := alertsOf_errorTranslate c (readStatus ctx rec)
  rcases hte : errorTranslate c (readStatus ctx rec) with ⟨t, l⟩
  rw [hte] at hl
  simp only at hl
  rw [SSLReadRecord_of_translate c rec ctx t l hte]
  simp only [alertsOf, alertsOf_append, hl, List.nil_append]
  by_cases h0 : t = c.errSecSuccess ∨ t = c.errSSLWouldBlock
  · simp [if_pos h0, alertsOf]
  by_cases h1 : t = c.errSSLUnexpectedRecord
  · simp [if_neg h0, if_pos h1, alertsOf]
  by_cases h2 : t = c.errSSLDecryptionFail ∨ t = c.errSSLBadRecordMac
  · cases hd : ctx.isDTLS <;> simp [if_neg h0, if_neg h1, if_pos h2, alertsOf]
  by_cases h3 : t = c.errSSLInternal
  · simp [if_neg h0, if_neg h1, if_neg h2, if_pos h3, alertsOf]
  by_cases h4 : t = c.errSSLRecordOverflow
  · simp [if_neg h0, if_neg h1, if_neg h2, if_neg h3, if_pos h4, alertsOf]
  by_cases h5 : t = c.errSSLClosedAbort ∨ t = c.errSSLConnectionRefused
  · simp [if_neg h0, if_neg h1, if_neg h2, if_neg h3, if_neg h4, if_pos h5, alertsOf]
  · simp [if_neg h0, if_neg h1, if_neg h2, if_neg h3, if_neg h4, if_neg h5, alertsOf]

/-- `SSLWriteRecord` sends no alert. -/
theorem alertsOf_SSLWriteRecord {σ : Type} (c : Codes) (rec : SSLRecord)
    (ctx : SSLContext σ) : alertsOf (SSLWriteRecord c rec ctx).trace = [] := by
  have hl := alertsOf_errorTranslate c (ctx.recFuncs.write ctx.recCtx rec).status
  simp only [SSLWriteRecord, alertsOf_append, hl, apply_ite alertsOf]
  simp [alertsOf]

/-- `SSLServiceWriteQueue` sends no alert. -/
theorem alertsOf_SSLServiceWriteQueue {σ : Type} (c : Codes) (rec : SSLRecord)
    (ctx : SSLContext σ) : alertsOf (SSLServiceWriteQueue c rec ctx).trace = [] := by
  have hl := alertsOf_errorTranslate c (ctx.recFuncs.serviceWriteQueue ctx.recCtx).status
  simp only [SSLServiceWriteQueue, alertsOf_append, hl]
  simp [alertsOf]

/-- C18: for every raw transport status, both protocol variants and each of
the four adapter operations, every alert requested has a kind in
{BadRecordMac, InternalError, RecordOverflow, CloseNotify}; a decryption-failed
alert is never requested. -/
theorem C18_no_decryption_failed_alert {σ : Type} (c : Codes) (rec : SSLRecord)
    (ctx : SSLContext σ) :
    (alertsOf (SSLReadRecord c rec ctx).trace ⊆
        [AlertDescription.SSL_AlertBadRecordMac, AlertDescription.SSL_AlertInternalError,
         AlertDescription.SSL_AlertRecordOverflow, AlertDescription.SSL_AlertCloseNotify] ∧
      AlertDescription.SSL_AlertDecryptionFail ∉ alertsOf (SSLReadRecord c rec ctx).trace) ∧
    (alertsOf (SSLWriteRecord c rec ctx).trace ⊆
        [AlertDescription.SSL_AlertBadRecordMac, AlertDescription.SSL_AlertInternalError,
         AlertDescription.SSL_AlertRecordOverflow, AlertDescription.SSL_AlertCloseNotify] ∧
      AlertDescription.SSL_AlertDecryptionFail ∉ alertsOf (SSLWriteRecord c rec ctx).trace) ∧
    (alertsOf (SSLFreeRecord rec ctx).trace ⊆
        [AlertDescription.SSL_AlertBadRecordMac, AlertDescription.SSL_AlertInternalError,
         AlertDescription.SSL_AlertRecordOverflow, AlertDescription.SSL_AlertCloseNotify] ∧
      AlertDescription.SSL_AlertDecryptionFail ∉ alertsOf (SSLFreeRecord rec ctx).trace) ∧
    (alertsOf (SSLServiceWriteQueue c rec ctx).trace ⊆
        [AlertDescription.SSL_AlertBadRecordMac, AlertDescription.SSL_AlertInternalError,
         AlertDescription.SSL_AlertRecordOverflow, AlertDescription.SSL_AlertCloseNotify] ∧
      AlertDescription.SSL_AlertDecryptionFail ∉
        alertsOf (SSLServiceWriteQueue c rec ctx).trace) := by
  refine ⟨?_, ?_, ?_, ?_⟩
  · rcases alertsOf_SSLReadRecord c rec ctx with hr | hr | hr | hr | hr <;> simp [hr]
  · simp [alertsOf_SSLWriteRecord]
  · simp [SSLFreeRecord, alertsOf]
  · simp [alertsOf_SSLServiceWriteQueue]

/-- C19: for both protocol variants, when the transport's read reports protocol
or negotiation, `SSLReadRecord` takes its `default` branch: it returns the
translated code (`errSSLProtocol`, respectively `errSSLNegotiation`), sends
exactly one alert, of kind `SSL_AlertCloseNotify`, triggers no retransmission,
and makes exactly one log call, the "unknown error code" one of
`SSLReadRecord`, although `errorTranslate` recognized the code. -/
theorem C19_protocol_negotiation_take_default {σ : Type} (c : Codes) (h : c.WF)
    (hS : c.SessionDistinct) (rec : SSLRecord) (ctx : SSLContext σ) :
    (readStatus ctx rec = c.errSSLRecordProtocol →
      (SSLReadRecord c rec ctx).err = c.errSSLProtocol ∧
      alertsOf (SSLReadRecord c rec ctx).trace = [AlertDescription.SSL_AlertCloseNotify] ∧
      retransmitCount (SSLReadRecord c rec ctx).trace = 0 ∧
      logsOf (SSLReadRecord c rec ctx).trace
        = [(LogSite.SSLReadRecord, c.errSSLProtocol)]) ∧
    (readStatus ctx rec = c.errSSLRecordNegotiation →
      (SSLReadRecord c rec ctx).err = c.errSSLNegotiation ∧
      alertsOf (SSLReadRecord c rec ctx).trace = [AlertDescription.SSL_AlertCloseNotify] ∧
      retransmitCount (SSLReadRecord c rec ctx).trace = 0 ∧
      logsOf (SSLReadRecord c rec ctx).trace
        = [(LogSite.SSLReadRecord, c.errSSLNegotiation)]) := by
  have hF : c.translateResults.Nodup := hS
  have hB := List.nodup_reverse.mpr hF
  simp only [Codes.translateResults, List.reverse_cons, List.reverse_nil, List.nil_append,
    List.cons_append, List.nodup_cons, List.mem_cons, List.mem_singleton, not_or,
    List.not_mem_nil, not_false_eq_true, and_true, List.nodup_nil] at hF hB
  refine ⟨fun hraw => ?_, fun hraw => ?_⟩
  · have hte := errorTranslate_protocol h
    rw [← hraw] at hte
    rw [SSLReadRecord_of_translate c rec ctx _ _ hte]
    simp [hF, hB, alertsOf, retransmitCount, logsOf]
  · have hte := errorTranslate_negotiation h
    rw [← hraw] at hte
    rw [SSLReadRecord_of_translate c rec ctx _ _ hte]
    simp [hF, hB, alertsOf, retransmitCount, logsOf]

/-- C19 at a stream context reporting protocol and a DTLS context reporting
negotiation. -/
theorem C19_protocol_negotiation_take_default_witness :
    darwinCodes.WF ∧ darwinCodes.SessionDistinct ∧
    logsOf (SSLReadRecord darwinCodes emptyRecord
      (stubCtx darwinCodes.errSSLRecordProtocol sampleRecord false)).trace
      = [(LogSite.SSLReadRecord, darwinCodes.errSSLProtocol)] ∧
    alertsOf (SSLReadRecord darwinCodes emptyRecord
      (stubCtx darwinCodes.errSSLRecordNegotiation sampleRecord true)).trace
      = [AlertDescription.SSL_AlertCloseNotify] :=
  ⟨by decide, by decide,
   ((C19_protocol_negotiation_take_default darwinCodes (by decide) (by decide) emptyRecord
     (stubCtx darwinCodes.errSSLRecordProtocol sampleRecord false)).1 rfl).2.2.2,
   ((C19_protocol_negotiation_take_default darwinCodes (by decide) (by decide) emptyRecord
     (stubCtx darwinCodes.errSSLRecordNegotiation sampleRecord true)).2 rfl).2.1⟩

/-- C20: the protocol-variant flag matters to `SSLReadRecord` only for
MAC/decryption failures.  For every context and every raw transport read status
whose translation is neither `errSSLDecryptionFail` nor `errSSLBadRecordMac`,
the read with the flag set to stream and the read with the flag set to DTLS
return the same status and make the same calls in the same order. -/
theorem C20_variant_matters_only_for_mac {σ : Type} (c : Codes)
    (rec : SSLRecord) (ctx : SSLContext σ)
    (h1 : (errorTranslate c (readStatus ctx rec)).1 ≠ c.errSSLDecryptionFail)
    (h2 : (errorTranslate c (readStatus ctx rec)).1 ≠ c.errSSLBadRecordMac) :
    (SSLReadRecord c rec { ctx with isDTLS := false }).err
      = (SSLReadRecord c rec { ctx with isDTLS := true }).err ∧
    (SSLReadRecord c rec { ctx with isDTLS := false }).trace
      = (SSLReadRecord c rec { ctx with isDTLS := true }).trace := by
  rcases hte : errorTranslate c (readStatus ctx rec) with ⟨t, l⟩
  have hte₁ : errorTranslate c (readStatus { ctx with isDTLS := false } rec) = (t, l) := hte
  have hte₂ : errorTranslate c (readStatus { ctx with isDTLS := true } rec) = (t, l) := hte
  rw [hte] at h1 h2
  simp only at h1 h2
  rw [SSLReadRecord_of_translate c rec _ t l hte₁,
    SSLReadRecord_of_translate c rec _ t l hte₂]
  simp only [h1, h2, or_self, if_false, and_self]

/-- C20 at the unmodelled status 9999, read on a stream and on a DTLS context. -/
theorem C20_variant_matters_only_for_mac_witness :
    (SSLReadRecord darwinCodes emptyRecord (stubCtx 9999 sampleRecord false)).err
      = (SSLReadRecord darwinCodes emptyRecord (stubCtx 9999 sampleRecord true)).err ∧
    (SSLReadRecord darwinCodes emptyRecord (stubCtx 9999 sampleRecord false)).trace
      = (SSLReadRecord darwinCodes emptyRecord (stubCtx 9999 sampleRecord true)).trace :=
  C20_variant_matters_only_for_mac darwinCodes emptyRecord
    (stubCtx 9999 sampleRecord false) (by decide) (by decide)

end SSLRecordLayer
